import Mathlib

/-!
Verification development for the PantryChef backend (src/backend/main.py).

The pantry database is modelled as a list of stored records, threaded
explicitly through each request handler.  Calendar dates are modelled as
integers (a day number), so that the days-left computation
`(expiry_date - today).days` becomes integer subtraction.  The external
text-generation service is modelled as a function from the user prompt to
either generated text or an exception message; each handler result carries
the number of external calls performed alongside the final database state.
-/

namespace PantryChef

/-- A stored pantry record: integer primary key, ingredient name, optional
expiry date (a day number; `none` means no known expiry). -/
structure PantryItem where
  id : Nat
  name : String
  expiry_date : Option Int
deriving Repr, DecidableEq

/-- An HTTPException as raised by the handlers: status code plus detail. -/
structure HTTPError where
  status_code : Nat
  detail : String
deriving Repr, DecidableEq

/-- GET /api/pantry/ — returns all records; the database is not modified. -/
def get_pantry_items (state : List PantryItem) :
    List PantryItem × List PantryItem :=
  (state, state)

/-- Response body of DELETE /api/pantry/(item_id) on success. -/
structure DeleteMessage where
  message : String
  id : Nat
deriving Repr, DecidableEq

/-- DELETE /api/pantry/(item_id) — finds the first record with the given id
(`.filter(...).first()`); raises 404 if absent, otherwise deletes that
record and commits. -/
def delete_pantry_item (item_id : Nat) (state : List PantryItem) :
    Except HTTPError DeleteMessage × List PantryItem :=
  match state.find? (fun it => it.id == item_id) with
  | none => (Except.error ⟨404, "Item not found"⟩, state)
  | some _ =>
      (Except.ok ⟨"Item deleted successfully", item_id⟩,
        state.eraseP (fun it => it.id == item_id))

/-- Response body of DELETE /api/pantry/ (clear all). -/
structure ClearMessage where
  message : String
deriving Repr, DecidableEq

/-- The store-level bulk delete `db.query(PantryItem).delete()`: removes
every record and returns the number of rows deleted. -/
def delete_all (state : List PantryItem) : Nat × List PantryItem :=
  (state.length, [])

/-- DELETE /api/pantry/ — bulk-deletes all records and returns a fixed
success message (the row count returned by the store is discarded). -/
def clear_pantry (state : List PantryItem) : ClearMessage × List PantryItem :=
  (⟨"Pantry cleared"⟩, (delete_all state).2)

/-- The per-item classification inside the generate-recipe loop: an item
with an expiry date is expiring soon when `days_left <= 3`, where
`days_left = expiry_date - today`; an item without one never is. -/
def isExpiringSoon (today : Int) (it : PantryItem) : Bool :=
  match it.expiry_date with
  | none => false
  | some d => d - today ≤ 3

/-- The `all_ingredients` list built by the loop: every item name in
encounter order. -/
def all_ingredients (items : List PantryItem) : List String :=
  items.map PantryItem.name

/-- The `expiring_soon` list built by the loop: names of the items
classified as expiring soon, in encounter order. -/
def expiring_soon (today : Int) (items : List PantryItem) : List String :=
  (items.filter (isExpiringSoon today)).map PantryItem.name

/-- The generator expression feeding the ALSO AVAILABLE section:
`i for i in all_ingredients if i not in expiring_soon` — note the
membership test is on names. -/
def others (today : Int) (items : List PantryItem) : List String :=
  (all_ingredients items).filter
    (fun i => decide (i ∉ expiring_soon today items))

/-- The prompt template used when `expiring_soon` is non-empty. -/
def prompt_with_expiring (exp oth : List String) : String :=
  "You are a creative chef. Generate ONE delicious recipe.\n\nMUST USE (expiring soon - HIGH PRIORITY):\n"
    ++ String.intercalate ", " exp
    ++ "\n\nALSO AVAILABLE:\n"
    ++ String.intercalate ", " oth
    ++ "\n\nRequirements:\n- You MUST use at least 2 expiring ingredients\n- 30 minutes or less cook time\n- Portions for 2 people\n- Step-by-step instructions\n- Start with the recipe name"

/-- The prompt template used when `expiring_soon` is empty. -/
def prompt_plain (alls : List String) : String :=
  "You are a creative chef. Generate ONE delicious recipe.\n\nAVAILABLE INGREDIENTS:\n"
    ++ String.intercalate ", " alls
    ++ "\n\nRequirements:\n- Practical recipe (30 minutes or less)\n- Portions for 2 people\n- Step-by-step instructions\n- Start with the recipe name"

/-- The prompt actually sent, chosen by the truthiness test
`if expiring_soon:`. -/
def buildPrompt (today : Int) (items : List PantryItem) : String :=
  if expiring_soon today items ≠ [] then
    prompt_with_expiring (expiring_soon today items) (others today items)
  else
    prompt_plain (all_ingredients items)

/-- Response body of POST /api/generate-recipe/ on success. -/
structure RecipeResponse where
  recipe : String
  expiring_items : List String
  total_items : Nat
  items_used : Nat
deriving Repr, DecidableEq

/-- POST /api/generate-recipe/ — `md` models the markdown-to-HTML
converter, `svc` the external chat-completion call on the built prompt
(`Except.error e` models a raised exception with message `e`).  The middle
component of the result counts external calls performed; the last is the
database state afterwards (the handler only reads). -/
def generate_recipe (md : String → String) (today : Int)
    (state : List PantryItem) (svc : String → Except String String) :
    Except HTTPError RecipeResponse × Nat × List PantryItem :=
  if state = [] then
    (Except.error ⟨400, "Pantry is empty. Please add some ingredients first!"⟩,
      0, state)
  else
    match svc (buildPrompt today state) with
    | Except.error e =>
        (Except.error ⟨500, "Failed to generate recipe: " ++ e⟩, 1, state)
    | Except.ok recipe_text =>
        (Except.ok
          { recipe := md recipe_text
            expiring_items := expiring_soon today state
            total_items := (all_ingredients state).length
            items_used :=
              if expiring_soon today state ≠ [] then
                (expiring_soon today state).length
              else
                (all_ingredients state).length },
          1, state)

/-- C1: the recipe-generation classification marks an item expiring soon iff
it has an expiry date and the days left (expiry minus today) is at most 3,
negative values included; an item with no expiry date is never expiring
soon. -/
theorem expiringSoon_classification (today : Int) (it : PantryItem) :
    (isExpiringSoon today it = true ↔
      ∃ d, it.expiry_date = some d ∧ d - today ≤ 3) ∧
    (it.expiry_date = none → isExpiringSoon today it = false) := by
  unfold isExpiringSoon
  cases h : it.expiry_date with
  | none => simp
  | some d => simp

/-- C4: on an empty pantry, generate-recipe fails with status 400 and the
empty-pantry detail, performs zero external calls, and leaves the (empty)
state unchanged, for every converter, date and external service. -/
theorem empty_pantry_rejected (md : String → String) (today : Int)
    (svc : String → Except String String) :
    generate_recipe md today [] svc =
      (Except.error
          ⟨400, "Pantry is empty. Please add some ingredients first!"⟩,
        0, []) := rfl

/-- C7: the bulk delete reports the number of records removed (all of them),
and after clearing the pantry a subsequent list-all returns the empty
sequence. -/
theorem clear_removes_all (state : List PantryItem) :
    (delete_all state).1 = state.length ∧
    (clear_pantry state).2 = [] ∧
    (get_pantry_items ((clear_pantry state).2)).1 = [] :=
  ⟨rfl, rfl, rfl⟩

/-- C8: listing the pantry does not change the state, so two consecutive
GETs with no intervening writes return the same items. -/
theorem get_pantry_idempotent (state : List PantryItem) :
    (get_pantry_items ((get_pantry_items state).2)).1 =
      (get_pantry_items state).1 ∧
    (get_pantry_items state).2 = state :=
  ⟨rfl, rfl⟩

/-- C9: generate-recipe never modifies the stored items: on the empty-pantry
rejection, on service failure and on success the final state equals the
initial state. -/
theorem generate_recipe_readonly (md : String → String) (today : Int)
    (state : List PantryItem) (svc : String → Except String String) :
    (generate_recipe md today state svc).2.2 = state := by
  unfold generate_recipe
  by_cases h : state = []
  · simp [h]
  · simp only [if_neg h]
    cases svc (buildPrompt today state) <;> rfl

/-- C10: clearing an already-empty pantry succeeds with the same fixed
message as on any other state; zero stored items is a valid input. -/
theorem clear_empty_pantry_ok :
    clear_pantry [] = (⟨"Pantry cleared"⟩, []) ∧
    ∀ state : List PantryItem,
      (clear_pantry state).1 = (clear_pantry []).1 :=
  ⟨rfl, fun _ => rfl⟩

/-- C3: on a successful generation over a non-empty pantry, `total_items` is
the number of ingredients, and `items_used` is the number of expiring-soon
items when that number is positive, otherwise `total_items`. -/
theorem recipe_counts (md : String → String) (today : Int)
    (items : List PantryItem) (svc : String → Except String String)
    (txt : String) (hne : items ≠ [])
    (hok : svc (buildPrompt today items) = Except.ok txt) :
    ∃ r : RecipeResponse,
      (generate_recipe md today items svc).1 = Except.ok r ∧
      r.total_items = items.length ∧
      (0 < (items.filter (isExpiringSoon today)).length →
        r.items_used = (items.filter (isExpiringSoon today)).length) ∧
      ((items.filter (isExpiringSoon today)).length = 0 →
        r.items_used = r.total_items) := by
  unfold generate_recipe
  rw [if_neg hne, hok]
  refine ⟨_, rfl, ?_, ?_, ?_⟩
  · simp [all_ingredients]
  · intro hpos
    have hlen : (expiring_soon today items).length =
        (items.filter (isExpiringSoon today)).length := by
      simp [expiring_soon]
    have hnz : expiring_soon today items ≠ [] := by
      intro hnil
      rw [hnil] at hlen
      simp at hlen
      omega
    simp [hnz, hlen]
  · intro hzero
    have hnil : expiring_soon today items = [] := by
      have : (expiring_soon today items).length = 0 := by
        simp [expiring_soon, hzero]
      exact List.eq_nil_of_length_eq_zero this
    simp [hnil]

/-- Witness for C3 at the spec example: Eggs expiring tomorrow, Rice without
an expiry date, a service that returns text. -/
theorem recipe_counts_witness :
    ([⟨1, "Eggs", some 1⟩, ⟨2, "Rice", none⟩] : List PantryItem) ≠ [] ∧
    ∃ r : RecipeResponse,
      (generate_recipe id 0 [⟨1, "Eggs", some 1⟩, ⟨2, "Rice", none⟩]
          (fun _ => Except.ok "A recipe")).1 = Except.ok r ∧
      r.total_items =
        ([⟨1, "Eggs", some 1⟩, ⟨2, "Rice", none⟩] : List PantryItem).length ∧
      (0 < (([⟨1, "Eggs", some 1⟩, ⟨2, "Rice", none⟩] :
            List PantryItem).filter (isExpiringSoon 0)).length →
        r.items_used =
          (([⟨1, "Eggs", some 1⟩, ⟨2, "Rice", none⟩] :
            List PantryItem).filter (isExpiringSoon 0)).length) ∧
      ((([⟨1, "Eggs", some 1⟩, ⟨2, "Rice", none⟩] :
            List PantryItem).filter (isExpiringSoon 0)).length = 0 →
        r.items_used = r.total_items) :=
  ⟨by decide,
    recipe_counts id 0 [⟨1, "Eggs", some 1⟩, ⟨2, "Rice", none⟩]
      (fun _ => Except.ok "A recipe") "A recipe" (by decide) rfl⟩

/-- C5: when the external call raises, generate-recipe returns status 500
with a detail that ends in the underlying error message, performs exactly
one external call (no retry), and leaves the stored items unchanged. -/
theorem service_failure_surfaced (md : String → String) (today : Int)
    (items : List PantryItem) (svc : String → Except String String)
    (e : String) (hne : items ≠ [])
    (herr : svc (buildPrompt today items) = Except.error e) :
    (generate_recipe md today items svc).1 =
      Except.error ⟨500, "Failed to generate recipe: " ++ e⟩ ∧
    (∃ p, ("Failed to generate recipe: " ++ e) = p ++ e) ∧
    (generate_recipe md today items svc).2.1 = 1 ∧
    (generate_recipe md today items svc).2.2 = items := by
  unfold generate_recipe
  rw [if_neg hne, herr]
  exact ⟨rfl, ⟨"Failed to generate recipe: ", rfl⟩, rfl, rfl⟩

/-- Witness for C5: a one-item pantry and a service that raises "boom". -/
theorem service_failure_surfaced_witness :
    ([⟨1, "Milk", none⟩] : List PantryItem) ≠ [] ∧
    ((fun _ : String => (Except.error "boom" : Except String String))
        (buildPrompt 0 [⟨1, "Milk", none⟩]) = Except.error "boom") ∧
    ((generate_recipe id 0 [⟨1, "Milk", none⟩]
        (fun _ => Except.error "boom")).1 =
      Except.error ⟨500, "Failed to generate recipe: " ++ "boom"⟩ ∧
    (∃ p, ("Failed to generate recipe: " ++ "boom") = p ++ "boom") ∧
    (generate_recipe id 0 [⟨1, "Milk", none⟩]
        (fun _ => Except.error "boom")).2.1 = 1 ∧
    (generate_recipe id 0 [⟨1, "Milk", none⟩]
        (fun _ => Except.error "boom")).2.2 = [⟨1, "Milk", none⟩]) :=
  ⟨by decide, rfl,
    service_failure_surfaced id 0 [⟨1, "Milk", none⟩]
      (fun _ => Except.error "boom") "boom" (by decide) rfl⟩

/-- C6: delete-by-id answers 404 with the state unchanged iff no stored item
has the requested id; when one does (under the unique-id store invariant) it
succeeds and removes exactly that record — the new state has one fewer
item, contains no item with that id, keeps every other item, and contains
only items that were already stored. -/
theorem delete_by_id_spec (item_id : Nat) (state : List PantryItem)
    (hnd : (state.map PantryItem.id).Nodup) :
    ((delete_pantry_item item_id state).1 =
        Except.error ⟨404, "Item not found"⟩ ∧
      (delete_pantry_item item_id state).2 = state ↔
      ∀ it ∈ state, it.id ≠ item_id) ∧
    ((∃ it ∈ state, it.id = item_id) →
      (delete_pantry_item item_id state).1 =
        Except.ok ⟨"Item deleted successfully", item_id⟩ ∧
      (delete_pantry_item item_id state).2.length + 1 = state.length ∧
      (∀ it ∈ (delete_pantry_item item_id state).2, it.id ≠ item_id) ∧
      (∀ it ∈ state, it.id ≠ item_id →
        it ∈ (delete_pantry_item item_id state).2) ∧
      (∀ it ∈ (delete_pantry_item item_id state).2, it ∈ state)) := by
  unfold delete_pantry_item
  cases hfind : state.find? (fun it => it.id == item_id) with
  | none =>
    have habs : ∀ it ∈ state, it.id ≠ item_id := by
      intro it hit
      have h := List.find?_eq_none.mp hfind it hit
      simpa using h
    refine ⟨⟨fun _ => habs, fun _ => ⟨rfl, rfl⟩⟩, ?_⟩
    rintro ⟨it, hit, hid⟩
    exact absurd hid (habs it hit)
  | some a =>
    have hpa : (a.id == item_id) = true :=
      List.find?_some (p := fun it : PantryItem => it.id == item_id) hfind
    have haid : a.id = item_id := by simpa using hpa
    have hamem : a ∈ state := List.mem_of_find?_eq_some hfind
    constructor
    · constructor
      · rintro ⟨h1, -⟩
        simp at h1
      · intro habs
        exact absurd haid (habs a hamem)
    · intro _
      refine ⟨rfl, ?_, ?_, ?_, ?_⟩
      · have hlen :=
          List.length_eraseP_of_mem
            (p := fun it : PantryItem => it.id == item_id) hamem hpa
        have hpos : 0 < state.length := List.length_pos_of_mem hamem
        simp only [hlen]
        omega
      · obtain ⟨b, l₁, l₂, hl₁, hpb, hsplit, herase⟩ :=
          List.exists_of_eraseP
            (p := fun it : PantryItem => it.id == item_id) hamem hpa
        rw [herase]
        intro it hit hid
        rcases List.mem_append.mp hit with h1 | h2
        · exact absurd (by simp [hid]) (hl₁ it h1)
        · have hbid : b.id = item_id := by simpa using hpb
          have hnd' : ((l₁ ++ b :: l₂).map PantryItem.id).Nodup :=
            hsplit ▸ hnd
          rw [List.map_append, List.map_cons] at hnd'
          have hnotin : b.id ∉ l₂.map PantryItem.id :=
            (List.nodup_cons.mp hnd'.of_append_right).1
          have hin : it.id ∈ l₂.map PantryItem.id :=
            List.mem_map_of_mem _ h2
          rw [hid, ← hbid] at hin
          exact hnotin hin
      · intro it hit hne'
        exact (List.mem_eraseP_of_neg
          (p := fun x : PantryItem => x.id == item_id)
          (by simpa using hne')).mpr hit
      · intro it hit
        exact List.eraseP_subset _ hit

/-- A concrete two-item pantry used as witness input below. -/
def wstate : List PantryItem := [⟨1, "Milk", none⟩, ⟨2, "Eggs", some 5⟩]

/-- Witness for C6: deleting id 1 from the two-item pantry `wstate`. -/
theorem delete_by_id_spec_witness :
    (wstate.map PantryItem.id).Nodup ∧
    (((delete_pantry_item 1 wstate).1 =
        Except.error ⟨404, "Item not found"⟩ ∧
      (delete_pantry_item 1 wstate).2 = wstate ↔
      ∀ it ∈ wstate, it.id ≠ 1) ∧
    ((∃ it ∈ wstate, it.id = 1) →
      (delete_pantry_item 1 wstate).1 =
        Except.ok ⟨"Item deleted successfully", 1⟩ ∧
      (delete_pantry_item 1 wstate).2.length + 1 = wstate.length ∧
      (∀ it ∈ (delete_pantry_item 1 wstate).2, it.id ≠ 1) ∧
      (∀ it ∈ wstate, it.id ≠ 1 → it ∈ (delete_pantry_item 1 wstate).2) ∧
      (∀ it ∈ (delete_pantry_item 1 wstate).2, it ∈ wstate))) :=
  ⟨by decide, delete_by_id_spec 1 wstate (by decide)⟩

/-- A pantry with two items sharing the name "Eggs": the first expiring
tomorrow, the second with no expiry date. -/
def dupItems : List PantryItem := [⟨1, "Eggs", some 1⟩, ⟨2, "Eggs", none⟩]

/-- C2 counterexample: the ALSO AVAILABLE list is built by testing names
against the expiring-soon names, so when a not-expiring item shares its
name with an expiring one it is dropped — here the second "Eggs" item is
not classified expiring soon yet the ALSO AVAILABLE list is empty, not
["Eggs"]. -/
theorem also_available_drops_duplicate_names :
    dupItems ≠ [] ∧
    expiring_soon 0 dupItems ≠ [] ∧
    others 0 dupItems ≠
      (dupItems.filter (fun it => !(isExpiringSoon 0 it))).map
        PantryItem.name := by
  refine ⟨by decide, by decide, by decide⟩

/-- Helper for C2: when membership of a name in `E` coincides with the
expiring-soon classification of the item carrying it, filtering the name
list by non-membership in `E` agrees with mapping names over the
not-expiring items. -/
theorem filter_names_agrees (today : Int) (E : List String) :
    ∀ items : List PantryItem,
      (∀ it ∈ items, (it.name ∈ E ↔ isExpiringSoon today it = true)) →
      (items.map PantryItem.name).filter (fun n => decide (n ∉ E)) =
        (items.filter (fun it => !(isExpiringSoon today it))).map
          PantryItem.name := by
  intro items
  induction items with
  | nil => intro _; rfl
  | cons a rest ih =>
    intro h
    have ha := h a (List.mem_cons_self a rest)
    have hrest := ih (fun it hit => h it (List.mem_cons_of_mem a hit))
    by_cases hcls : isExpiringSoon today a = true
    · have hmem : a.name ∈ E := ha.mpr hcls
      simp only [List.map_cons, List.filter_cons, hmem, hcls]
      simpa using hrest
    · have hnmem : a.name ∉ E := fun hc => hcls (ha.mp hc)
      have hrest' : List.filter (fun n => !decide (n ∈ E))
          (List.map PantryItem.name rest) =
          List.map PantryItem.name
            (List.filter (fun it => !isExpiringSoon today it) rest) := by
        simpa only [decide_not] using hrest
      simp [List.filter_cons, hnmem, hcls, hrest']

/-- C2 (amended): when expiring items exist, the prompt is the high-priority
template; its MUST USE list is exactly the names of the expiring-soon items
in encounter order, and — provided item names are pairwise distinct — its
ALSO AVAILABLE list is exactly the names of the items not classified as
expiring soon (items with no expiry date included). -/
theorem prompt_partition (today : Int) (items : List PantryItem)
    (hne : items ≠ [])
    (hexp : expiring_soon today items ≠ [])
    (hnames : (items.map PantryItem.name).Nodup) :
    buildPrompt today items =
      prompt_with_expiring (expiring_soon today items)
        (others today items) ∧
    expiring_soon today items =
      (items.filter (isExpiringSoon today)).map PantryItem.name ∧
    others today items =
      (items.filter (fun it => !(isExpiringSoon today it))).map
        PantryItem.name := by
  refine ⟨by rw [buildPrompt, if_pos hexp], rfl, ?_⟩
  have hdet : ∀ it ∈ items,
      (it.name ∈ expiring_soon today items ↔
        isExpiringSoon today it = true) := by
    intro it hit
    constructor
    · intro hmem
      simp only [expiring_soon, List.mem_map, List.mem_filter] at hmem
      obtain ⟨it', ⟨hit', hcls'⟩, hname⟩ := hmem
      have heq : it' = it := List.inj_on_of_nodup_map hnames hit' hit hname
      rw [← heq]
      exact hcls'
    · intro hcls
      simp only [expiring_soon, List.mem_map, List.mem_filter]
      exact ⟨it, ⟨hit, hcls⟩, rfl⟩
  have hmain := filter_names_agrees today (expiring_soon today items)
    items hdet
  simpa [others, all_ingredients] using hmain

/-- A two-item pantry matching the spec example: Eggs expiring tomorrow,
Rice with no expiry date. -/
def exampleItems : List PantryItem := [⟨1, "Eggs", some 1⟩, ⟨2, "Rice", none⟩]

/-- Witness for the amended C2 at the spec example with today = 0. -/
theorem prompt_partition_witness :
    exampleItems ≠ [] ∧
    expiring_soon 0 exampleItems ≠ [] ∧
    (exampleItems.map PantryItem.name).Nodup ∧
    (buildPrompt 0 exampleItems =
      prompt_with_expiring (expiring_soon 0 exampleItems)
        (others 0 exampleItems) ∧
    expiring_soon 0 exampleItems =
      (exampleItems.filter (isExpiringSoon 0)).map PantryItem.name ∧
    others 0 exampleItems =
      (exampleItems.filter (fun it => !(isExpiringSoon 0 it))).map
        PantryItem.name) :=
  ⟨by decide, by decide, by decide,
    prompt_partition 0 exampleItems (by decide) (by decide) (by decide)⟩

end PantryChef
